import Mathlib

/-!
Shallow embedding of the ETL script `banks_project_with_exceptions.py`.

Conventions of the embedding:
  - pandas DataFrames become `Dataset`: an ordered list of named columns, each
    an ordered list of `Value` cells; floating point numbers are idealised as
    exact rationals.
  - Python exceptions become the `PyError` inductive; `raise X from e` is the
    `runtimeError` constructor carrying its cause.
  - In-place mutation of a frame is modelled by explicit state passing: a
    mutating call returns the state of the frame at the moment the call returns
    or raises, together with the raised exception when there is one.
  - I/O is modelled by passing the result of the I/O action as an argument
    (the fetched document, the loaded rate file) or by a small explicit state
    (a path-to-content map for the file system, a name-to-table map for the
    database).
-/

namespace ETL

/-- Cell values of a tabular dataset: object cells are either strings or
numbers; floats are idealised as exact rationals. -/
inductive Value where
  | str (s : String)
  | num (q : ℚ)
deriving Repr, DecidableEq

/-- Python exception values raised by the script, with the message they carry.
`runtimeError` also records its cause (`raise ... from e`). -/
inductive PyError where
  | valueError (msg : String)
  | keyError (msg : String)
  | typeError (msg : String)
  | fileNotFoundError (msg : String)
  | permissionError (msg : String)
  | operationalError (msg : String)
  | runtimeError (msg : String) (cause : PyError)
deriving Repr, DecidableEq

/-- Python `str(e)` on the exceptions of the model. A `KeyError` renders its
message wrapped in quotes, as CPython does. -/
def pyStr : PyError → String
  | .valueError m => m
  | .keyError m => "\x27" ++ m ++ "\x27"
  | .typeError m => m
  | .fileNotFoundError m => m
  | .permissionError m => m
  | .operationalError m => m
  | .runtimeError m _ => m

/-- Round to the nearest integer, ties to even: the rounding applied by the
`round` call of the script on a numeric series (on the rational idealisation
of the float values). -/
def roundHalfEven (x : ℚ) : ℤ :=
  if x - ⌊x⌋ < 1/2 then ⌊x⌋
  else if 1/2 < x - ⌊x⌋ then ⌊x⌋ + 1
  else if ⌊x⌋ % 2 = 0 then ⌊x⌋ else ⌊x⌋ + 1

/-- `round(x, 2)` of the script, on exact rationals. -/
def round2 (x : ℚ) : ℚ := (roundHalfEven (x * 100) : ℚ) / 100

/-- In-memory tabular dataset: an ordered list of named columns
(a pandas DataFrame). -/
structure Dataset where
  cols : List (String × List Value)
deriving Repr, DecidableEq

/-- `n in df.columns`. -/
def Dataset.hasCol (d : Dataset) (n : String) : Bool :=
  d.cols.any (fun c => c.1 == n)

/-- `df[n]` for a column read (empty when the column is absent; every use in
the script is guarded by a presence check). -/
def Dataset.getCol (d : Dataset) (n : String) : List Value :=
  ((d.cols.find? (fun c => c.1 == n)).map (fun c => c.2)).getD []

/-- `df[n] = vs`: pandas column assignment replaces the column in place when
the name already exists and appends a new column at the end otherwise. -/
def Dataset.setCol (d : Dataset) (n : String) (vs : List Value) : Dataset :=
  if d.hasCol n then
    ⟨d.cols.map (fun c => if c.1 == n then (n, vs) else c)⟩
  else
    ⟨d.cols ++ [(n, vs)]⟩

/-- `df.columns`, in order. -/
def Dataset.colNames (d : Dataset) : List String := d.cols.map (fun c => c.1)

/-- Number of rows: the length of the first column (all columns of a dataset
built by this program have equal length). -/
def Dataset.nRows (d : Dataset) : Nat :=
  match d.cols with
  | [] => 0
  | c :: _ => c.2.length

/-- pandas `df.empty`: the frame has no rows or no columns at all. -/
def Dataset.isEmpty (d : Dataset) : Bool :=
  match d.cols with
  | [] => true
  | c :: _ => c.2.isEmpty

/-- The exchange-rate mapping obtained from
`pd.read_csv(csv_path, index_col=0).to_dict()` at key `Rate`: currency code to
multiplier. -/
abbrev RateTable := List (String × ℚ)

/-- Dictionary lookup in the loaded rate mapping. -/
def lookupRate (rt : RateTable) (c : String) : Option ℚ :=
  (rt.find? (fun p => p.1 == c)).map (fun p => p.2)

/-- The rate of a currency known to be present (default 0 otherwise). -/
def rateD (rt : RateTable) (c : String) : ℚ := (lookupRate rt c).getD 0

/-- The market-capitalisation column the transformer requires. -/
def mcCol : String := "Market cap (US$ billion)"

/-- The fixed currency iteration order of `transform`. -/
def currencies : List String := ["GBP", "EUR", "INR", "PKR"]

/-- The name of the derived column for one currency. -/
def mcColName (c : String) : String := "MC_" ++ c ++ "_Billion"

/-- Message of the ValueError raised when the market-cap column is absent. -/
def schemaColMsg : String :=
  "The input DataFrame is missing the \x27Market cap (US$ billion)\x27 column."

/-- Message of the KeyError raised when a currency is absent from the rates. -/
def missingRateMsg (c : String) : String :=
  "Exchange rate for " ++ c ++ " is missing in the exchange rate file."

/-- `round(df[mcCol] * r, 2)` element by element; a non-numeric cell makes
pandas raise a TypeError, which the catch-all handler of `transform` wraps. -/
def seriesMulRound (r : ℚ) : List Value → Except PyError (List Value)
  | [] => .ok []
  | .num q :: rest =>
      (seriesMulRound r rest).map (fun vs => .num (round2 (q * r)) :: vs)
  | .str _ :: _ =>
      .error (.typeError ("unsupported operand type for multiplication"))

/-- The per-currency loop of `transform`, in state-passing form: the first
component is the state of the caller frame after the loop, the second the
exception raised inside it, if any. -/
def transformLoop (rt : RateTable) : Dataset → List String → Dataset × Option PyError
  | df, [] => (df, none)
  | df, c :: rest =>
    match lookupRate rt c with
    | none => (df, some (.keyError (missingRateMsg c)))
    | some r =>
      match seriesMulRound r (df.getCol mcCol) with
      | .error e => (df, some e)
      | .ok vs => transformLoop rt (df.setCol (mcColName c) vs) rest

/-- The catch-all handler of `transform`: every failure is wrapped in a
RuntimeError that carries the original exception as cause. -/
def wrapT (e : PyError) : PyError :=
  .runtimeError ("An error occurred during data transformation: " ++ pyStr e) e

/-- `transform(df, csv_path)`. The read of the exchange-rate CSV is modelled
by the `load` argument, holding either the loaded rate mapping or the
exception that the read raised. State-passing: the first component is the
state of the caller frame (mutated in place) when the call returns or
raises. -/
def transform (df : Dataset) (load : Except PyError RateTable) :
    Dataset × Option PyError :=
  if df.hasCol mcCol then
    match load with
    | .error e => (df, some (wrapT e))
    | .ok rt =>
      match transformLoop rt df currencies with
      | (df2, none) => (df2, none)
      | (df2, some e) => (df2, some (wrapT e))
  else
    (df, some (wrapT (.valueError schemaColMsg)))

/-- One node of the parsed HTML document, flattened in document order. `rows`
is meaningful for `table` nodes only: the cell texts of each table row. -/
structure Elem where
  tag : String
  text : String
  rows : List (List String)
deriving Repr, DecidableEq

/-- First element of the list satisfying the predicate, together with the
elements that follow it in document order. -/
def findFirst (p : Elem → Bool) : List Elem → Option (Elem × List Elem)
  | [] => none
  | e :: rest => if p e then some (e, rest) else findFirst p rest

/-- `pd.read_html(str(table))[0]`: the first row provides the column names,
the remaining rows the data. Type inference of the reader is not modelled:
cells stay strings; a missing cell becomes the empty string. An empty table
makes the reader raise a ValueError. -/
def parseTable (rows : List (List String)) : Except PyError Dataset :=
  match rows with
  | [] => .error (.valueError ("No tables found"))
  | header :: body =>
    .ok ⟨(List.range header.length).map (fun i =>
        (header.getD i (""), body.map (fun r => Value.str (r.getD i ("")))))⟩

/-- `extract(url, table_attribs)` on the already fetched and parsed document
(the network fetch is outside the model). The locator is
`soup.find(span, string=table_attribs)` followed by `find_next(table)`; the
ValueError raised on failure is re-raised unchanged by the except clauses of
`extract`. -/
def extract (doc : List Elem) (table_attribs : String) : Except PyError Dataset :=
  match findFirst (fun e => e.tag == "span" && e.text == table_attribs) doc with
  | none =>
    .error (.valueError ("Table with attributes \x27" ++ table_attribs ++
      "\x27 not found on the webpage."))
  | some (_, rest) =>
    match findFirst (fun e => e.tag == "table") rest with
    | none => .error (.valueError ("No table found after the specified span."))
    | some (t, _) => parseTable t.rows

/-- Model file system: a map from path to the written lines. -/
abbrev FS := List (String × List String)

/-- Rendering of one cell in the CSV output (numeric rendering simplified; no
claim depends on the text of a numeric cell). -/
def Value.render : Value → String
  | .str s => s
  | .num q =>
      if q.den = 1 then toString q.num
      else toString q.num ++ "/" ++ toString q.den

/-- One CSV line. -/
def csvLine (cells : List String) : String := String.intercalate (",") cells

/-- `df.to_csv(path, index=False)`: header line first, then one line per row,
no index column. -/
def to_csv (d : Dataset) : List String :=
  csvLine d.colNames ::
    (List.range d.nRows).map (fun i =>
      csvLine (d.cols.map (fun c => Value.render (c.2.getD i (Value.str (""))))))

/-- Message of the ValueError raised by both sinks on an empty frame. -/
def emptyDfMsg : String := "The provided DataFrame is empty or None."

/-- `load_to_csv(df, output_path)` over the model file system. Directory
creation and write failures are not modelled: the destination is writable.
`df` is `none` when the caller passes None. -/
def load_to_csv (df : Option Dataset) (output_path : String) (fs : FS) :
    FS × Option PyError :=
  match df with
  | none => (fs, some (.valueError emptyDfMsg))
  | some d =>
    if d.isEmpty then (fs, some (.valueError emptyDfMsg))
    else ((output_path, to_csv d) :: fs.filter (fun p => p.1 != output_path), none)

/-- Model database: a map from table name to stored table. -/
structure DB where
  tables : List (String × Dataset)
deriving Repr, DecidableEq

/-- The table stored under a name, when one exists. -/
def DB.lookup (db : DB) (n : String) : Option Dataset :=
  (db.tables.find? (fun p => p.1 == n)).map (fun p => p.2)

/-- `df.to_sql(table_name, conn, if_exists=replace, index=False)`: drop any
existing table of that name and recreate it from the dataset alone. -/
def DB.replaceTable (db : DB) (n : String) (d : Dataset) : DB :=
  ⟨(n, d) :: db.tables.filter (fun p => p.1 != n)⟩

/-- `load_to_db(df, sql_connection, table_name)` over the model database. -/
def load_to_db (df : Option Dataset) (db : DB) (table_name : String) :
    DB × Option PyError :=
  match df with
  | none => (db, some (.valueError emptyDfMsg))
  | some d =>
    if d.isEmpty then (db, some (.valueError emptyDfMsg))
    else (db.replaceTable table_name d, none)

/-- Outcome of the attempt inside `run_query`: acquiring the cursor raises,
the body (execute or fetchall) raises — the flag telling whether the exception
is an instance of `sql_connection.Error` — or the fetch succeeds. -/
inductive QueryOutcome where
  | cursorFail (e : PyError) (dbErr : Bool)
  | bodyFail (e : PyError) (dbErr : Bool)
  | fetchOk (rows : List (List Value))
deriving Repr, DecidableEq

/-- Observable result of one `run_query` call: the returned value or raised
exception, whether the cursor local was ever bound, and how many times the
cursor was closed. -/
structure QueryTrace where
  result : Except PyError (List (List Value))
  cursorDefined : Bool
  closedCount : Nat
deriving Repr

/-- The two except clauses of `run_query`: a database error and any other
exception are both wrapped in a RuntimeError carrying the cause. -/
def wrapQ (e : PyError) (dbErr : Bool) : PyError :=
  if dbErr then
    .runtimeError ("An error occurred while executing the query: " ++ pyStr e) e
  else
    .runtimeError ("An unexpected error occurred while executing the query: " ++ pyStr e) e

/-- The `finally` clause of `run_query`: close the cursor when the local
variable is bound (sqlite cursor objects are always truthy). -/
def finallyClose (isBound : Bool) (closed : Nat) : Nat :=
  if isBound then closed + 1 else closed

/-- `run_query(query_statement, sql_connection)`: cursor acquisition, body,
except clauses, and the `finally` close, for each possible outcome of the
attempt. -/
def run_query (out : QueryOutcome) : QueryTrace :=
  match out with
  | .cursorFail e dbErr => ⟨.error (wrapQ e dbErr), false, finallyClose false 0⟩
  | .bodyFail e dbErr => ⟨.error (wrapQ e dbErr), true, finallyClose true 0⟩
  | .fetchOk rows => ⟨.ok rows, true, finallyClose true 0⟩

/-- `log_progress(message)`: the file-system part (directory creation plus
append) either succeeds or raises the given exception; the two except clauses
print and swallow. Result: (console output, exception propagated to the
caller). -/
def log_progress (attempt : Option PyError) : Option String × Option PyError :=
  match attempt with
  | none => (none, none)
  | some (.permissionError _) =>
    (some ("Error: Insufficient permissions to write to the log file."), none)
  | some e => (some ("An unexpected error occurred: " ++ pyStr e), none)

/-- Lifecycle events of the database connection of the entry point. -/
inductive ConnEvent where
  | opened
  | committed
  | rolledBack
  | closed
deriving Repr, DecidableEq

/-- Python `with sqlite3.connect(...) as conn`: on entry the connection is
opened; on exit the context manager commits the open transaction when the body
completed and rolls it back when the body raised. It does not close the
connection: the sqlite3 connection context manager manages the transaction,
not the connection lifetime (documented sqlite3 behaviour). -/
def withConn (body : List ConnEvent × Bool) : List ConnEvent × Bool :=
  (ConnEvent.opened :: body.1 ++
    [if body.2 then ConnEvent.committed else ConnEvent.rolledBack], body.2)

/-- The database section of the entry point: one `with` block around the table
load and the three queries; each step runs only when every previous step
succeeded (each inner handler re-raises). The four booleans model whether each
step, when reached, succeeds; the body touches no connection lifecycle event
itself. -/
def dbSection (loadOk q1Ok q2Ok q3Ok : Bool) : List ConnEvent × Bool :=
  withConn ([], loadOk && q1Ok && q2Ok && q3Ok)

/-! Concrete inputs used to instantiate the theorems below. -/

/-- A two-row dataset shaped like the extracted bank table. -/
def dfEx : Dataset :=
  ⟨[("Bank name", [Value.str ("A"), Value.str ("B")]),
    (mcCol, [Value.num (100), Value.num (200)])]⟩

/-- A zero-row dataset holding only the market-cap column. -/
def dfEx0 : Dataset := ⟨[(mcCol, [])]⟩

/-- A one-row dataset with a different schema. -/
def dfEx2 : Dataset := ⟨[("Bank name", [Value.str ("C")])]⟩

/-- A dataset without the market-cap column. -/
def dfNoMc : Dataset := ⟨[("Bank name", [Value.str ("A")])]⟩

/-- A complete example rate table. -/
def rtEx : RateTable :=
  [("GBP", 8/10), ("EUR", 93/100), ("INR", 8307/100), ("PKR", 27743/100)]

/-- A rate table with GBP present but EUR absent. -/
def rtExNoEUR : RateTable :=
  [("GBP", 8/10), ("INR", 8307/100), ("PKR", 27743/100)]

/-- A document whose only element with the marker text is a div, not a span,
with a table right after it. -/
def docDivOnly : List Elem :=
  [⟨"div", "By market capitalization", []⟩,
   ⟨"table", "", [["Bank name", "Market cap (US$ billion)"], ["A", "100"]]⟩]

/-- Elements of the witness document for the extractor. -/
def elDiv : Elem := ⟨"div", "x", []⟩

def elSpan : Elem := ⟨"span", "By market capitalization", []⟩

def elPara : Elem := ⟨"p", "y", []⟩

def elTable : Elem := ⟨"table", "", [["Bank name", "MC"], ["A", "100"], ["B", "200"]]⟩

def elTable2 : Elem := ⟨"table", "", []⟩

/-- A document with a span marker: a div before it, a paragraph between the
span and the first following table. -/
def docSpanEx : List Elem := [elDiv] ++ elSpan :: ([elPara] ++ elTable :: [elTable2])

/-! Helper lemmas about the embedded operations. -/

theorem seriesMulRound_num (r : ℚ) (qs : List ℚ) :
    seriesMulRound r (qs.map Value.num) =
      .ok (qs.map (fun q => Value.num (round2 (q * r)))) := by
  induction qs with
  | nil => rfl
  | cons q rest ih => simp [seriesMulRound, ih, Except.map]

theorem rateD_eq (rt : RateTable) (c : String) (r : ℚ)
    (h : lookupRate rt c = some r) : rateD rt c = r := by
  simp [rateD, h]

theorem hasCol_mk_append (cols : List (String × List Value)) (n m : String)
    (vs : List Value) :
    (Dataset.mk (cols ++ [(n, vs)])).hasCol m =
      ((Dataset.mk cols).hasCol m || (n == m)) := by
  simp [Dataset.hasCol]

theorem getCol_mk_append_of_hasCol (n m : String) (vs : List Value) :
    ∀ (cols : List (String × List Value)), (Dataset.mk cols).hasCol m = true →
    (Dataset.mk (cols ++ [(n, vs)])).getCol m = (Dataset.mk cols).getCol m := by
  intro cols
  induction cols with
  | nil => intro h; simp [Dataset.hasCol] at h
  | cons c rest ih =>
    intro h
    by_cases hc : (c.1 == m) = true
    · simp [Dataset.getCol, List.find?_cons, hc]
    · have h2 : (Dataset.mk rest).hasCol m = true := by
        simp only [Dataset.hasCol, List.any_cons, hc, Bool.false_or] at h
        exact h
      have h3 := ih h2
      simp only [Dataset.getCol, List.cons_append, List.find?_cons, hc] at h3 ⊢
      exact h3

theorem setCol_of_not_hasCol (d : Dataset) (n : String) (vs : List Value)
    (h : d.hasCol n = false) : d.setCol n vs = ⟨d.cols ++ [(n, vs)]⟩ := by
  simp [Dataset.setCol, h]

theorem any_map_replace (n m : String) (vs : List Value) :
    ∀ (l : List (String × List Value)),
      (l.map (fun c => if c.1 == n then (n, vs) else c)).any (fun c => c.1 == m) =
        l.any (fun c => c.1 == m) := by
  intro l
  induction l with
  | nil => rfl
  | cons c rest ih =>
    simp only [List.map_cons, List.any_cons, ih]
    congr 1
    by_cases hc : (c.1 == n) = true
    · have hcn : c.1 = n := by simpa using hc
      rw [if_pos hc]
      show (n == m) = (c.1 == m)
      rw [hcn]
    · rw [if_neg hc]

theorem find?_map_replace (n m : String) (vs : List Value)
    (h : (n == m) = false) :
    ∀ (l : List (String × List Value)),
      (l.map (fun c => if c.1 == n then (n, vs) else c)).find? (fun c => c.1 == m) =
        l.find? (fun c => c.1 == m) := by
  intro l
  induction l with
  | nil => rfl
  | cons c rest ih =>
    simp only [List.map_cons]
    by_cases hm : (c.1 == m) = true
    · have hc : ¬ (c.1 == n) = true := by
        intro hc
        have hcn : c.1 = n := by simpa using hc
        have hcm : c.1 = m := by simpa using hm
        have hnm : n = m := by rw [← hcn]; exact hcm
        simp [hnm] at h
      rw [if_neg hc, List.find?_cons, List.find?_cons]
      simp only [hm]
    · have hm2 : (c.1 == m) = false := by simpa using hm
      have hh : ((if (c.1 == n) = true then ((n, vs) : String × List Value) else c).1 == m)
          = false := by
        by_cases hc : (c.1 == n) = true
        · rw [if_pos hc]
          exact h
        · rw [if_neg hc]
          exact hm2
      rw [List.find?_cons, List.find?_cons]
      simp only [hh, hm2]
      exact ih

theorem hasCol_setCol_ne (d : Dataset) (n m : String) (vs : List Value)
    (h : (n == m) = false) : (d.setCol n vs).hasCol m = d.hasCol m := by
  unfold Dataset.setCol
  by_cases hd : d.hasCol n = true
  · rw [if_pos hd]
    exact any_map_replace n m vs d.cols
  · rw [if_neg hd]
    show (d.cols ++ [(n, vs)]).any (fun c => c.1 == m) = d.cols.any (fun c => c.1 == m)
    rw [List.any_append]
    simp [h]

theorem getCol_setCol_ne (d : Dataset) (n m : String) (vs : List Value)
    (h : (n == m) = false) : (d.setCol n vs).getCol m = d.getCol m := by
  unfold Dataset.setCol
  by_cases hd : d.hasCol n = true
  · rw [if_pos hd]
    show (((d.cols.map (fun c => if c.1 == n then (n, vs) else c)).find?
      (fun c => c.1 == m)).map (fun c => c.2)).getD [] = d.getCol m
    rw [find?_map_replace n m vs h d.cols]
    rfl
  · rw [if_neg hd]
    show (((d.cols ++ [(n, vs)]).find? (fun c => c.1 == m)).map (fun c => c.2)).getD [] =
      d.getCol m
    rw [List.find?_append]
    have hone : (([((n, vs) : String × List Value)]).find? (fun c => c.1 == m)) = none := by
      simp [h]
    rw [hone]
    cases hf : d.cols.find? (fun c => c.1 == m) with
    | none => simp [Dataset.getCol, hf]
    | some x => simp [Dataset.getCol, hf]

theorem hasCol_append_col (d : Dataset) (n m : String) (vs : List Value) :
    (Dataset.mk (d.cols ++ [(n, vs)])).hasCol m = (d.hasCol m || (n == m)) :=
  hasCol_mk_append d.cols n m vs

theorem getCol_append_col (d : Dataset) (n m : String) (vs : List Value)
    (h : d.hasCol m = true) :
    (Dataset.mk (d.cols ++ [(n, vs)])).getCol m = d.getCol m :=
  getCol_mk_append_of_hasCol n m vs d.cols h

theorem transformLoop_skip_present (rt : RateTable) (qs : List ℚ) :
    ∀ (cs : List String) (rest : List String) (df : Dataset),
      df.hasCol mcCol = true →
      df.getCol mcCol = qs.map Value.num →
      (∀ c ∈ cs, (lookupRate rt c).isSome = true) →
      (∀ c ∈ cs, (mcColName c == mcCol) = false) →
      ∃ df2 : Dataset, transformLoop rt df (cs ++ rest) = transformLoop rt df2 rest ∧
        df2.hasCol mcCol = true ∧ df2.getCol mcCol = qs.map Value.num := by
  intro cs
  induction cs with
  | nil =>
    intro rest df h1 h2 _ _
    exact ⟨df, rfl, h1, h2⟩
  | cons c cs ih =>
    intro rest df h1 h2 hpres hne
    obtain ⟨r, hr⟩ := Option.isSome_iff_exists.mp (hpres c (List.mem_cons_self c cs))
    have hser : seriesMulRound r (df.getCol mcCol) =
        .ok (qs.map (fun q => Value.num (round2 (q * r)))) := by
      rw [h2]
      exact seriesMulRound_num r qs
    have hstep : transformLoop rt df ((c :: cs) ++ rest) =
        transformLoop rt
          (df.setCol (mcColName c) (qs.map (fun q => Value.num (round2 (q * r)))))
          (cs ++ rest) := by
      show transformLoop rt df (c :: (cs ++ rest)) = _
      simp only [transformLoop, hr, hser]
    have hnec := hne c (List.mem_cons_self c cs)
    have h1' : (df.setCol (mcColName c)
        (qs.map (fun q => Value.num (round2 (q * r))))).hasCol mcCol = true := by
      rw [hasCol_setCol_ne df (mcColName c) mcCol _ hnec]
      exact h1
    have h2' : (df.setCol (mcColName c)
        (qs.map (fun q => Value.num (round2 (q * r))))).getCol mcCol = qs.map Value.num := by
      rw [getCol_setCol_ne df (mcColName c) mcCol _ hnec]
      exact h2
    obtain ⟨df2, heq, p1, p2⟩ := ih rest _ h1' h2'
      (fun x hx => hpres x (List.mem_cons_of_mem c hx))
      (fun x hx => hne x (List.mem_cons_of_mem c hx))
    exact ⟨df2, hstep.trans heq, p1, p2⟩

theorem transformLoop_append_fresh (rt : RateTable) (qs : List ℚ) :
    ∀ (cs : List String) (rest : List String) (df : Dataset),
      df.hasCol mcCol = true →
      df.getCol mcCol = qs.map Value.num →
      (∀ c ∈ cs, (lookupRate rt c).isSome = true) →
      (∀ c ∈ cs, (mcColName c == mcCol) = false) →
      (∀ c ∈ cs, df.hasCol (mcColName c) = false) →
      cs.Pairwise (fun a b => (mcColName a == mcColName b) = false) →
      transformLoop rt df (cs ++ rest) =
        transformLoop rt
          ⟨df.cols ++ cs.map (fun c =>
            (mcColName c, qs.map (fun q => Value.num (round2 (q * rateD rt c)))))⟩ rest := by
  intro cs
  induction cs with
  | nil =>
    intro rest df _ _ _ _ _ _
    simp
  | cons c cs ih =>
    intro rest df h1 h2 hpres hne hfresh hpw
    obtain ⟨r, hr⟩ := Option.isSome_iff_exists.mp (hpres c (List.mem_cons_self c cs))
    have hrd : rateD rt c = r := rateD_eq rt c r hr
    have hser : seriesMulRound r (df.getCol mcCol) =
        .ok (qs.map (fun q => Value.num (round2 (q * r)))) := by
      rw [h2]
      exact seriesMulRound_num r qs
    have hsetc : df.setCol (mcColName c) (qs.map (fun q => Value.num (round2 (q * r)))) =
        ⟨df.cols ++ [(mcColName c, qs.map (fun q => Value.num (round2 (q * r))))]⟩ :=
      setCol_of_not_hasCol df _ _ (hfresh c (List.mem_cons_self c cs))
    have hstep : transformLoop rt df ((c :: cs) ++ rest) =
        transformLoop rt
          ⟨df.cols ++ [(mcColName c, qs.map (fun q => Value.num (round2 (q * r))))]⟩
          (cs ++ rest) := by
      show transformLoop rt df (c :: (cs ++ rest)) = _
      simp only [transformLoop, hr, hser, hsetc]
    have h1' : (Dataset.mk (df.cols ++
        [(mcColName c, qs.map (fun q => Value.num (round2 (q * r))))])).hasCol mcCol = true := by
      rw [hasCol_append_col, h1]
      rfl
    have h2' : (Dataset.mk (df.cols ++
        [(mcColName c, qs.map (fun q => Value.num (round2 (q * r))))])).getCol mcCol =
        qs.map Value.num := by
      rw [getCol_append_col df _ _ _ h1]
      exact h2
    have hfresh' : ∀ x ∈ cs, (Dataset.mk (df.cols ++
        [(mcColName c, qs.map (fun q => Value.num (round2 (q * r))))])).hasCol (mcColName x)
        = false := by
      intro x hx
      rw [hasCol_append_col, hfresh x (List.mem_cons_of_mem c hx),
        (List.pairwise_cons.mp hpw).1 x hx]
      rfl
    have hrec := ih rest _ h1' h2'
      (fun x hx => hpres x (List.mem_cons_of_mem c hx))
      (fun x hx => hne x (List.mem_cons_of_mem c hx))
      hfresh' (List.pairwise_cons.mp hpw).2
    rw [hstep, hrec]
    simp only [List.map_cons, hrd, List.append_assoc, List.singleton_append]

theorem transform_snd_of_loop (df : Dataset) (rt : RateTable)
    (h : df.hasCol mcCol = true) :
    (transform df (.ok rt)).2 = Option.map wrapT (transformLoop rt df currencies).2 := by
  rw [transform, if_pos h]
  cases htl : transformLoop rt df currencies with
  | mk a b => cases b <;> simp

theorem findFirst_eq_none (p : Elem → Bool) :
    ∀ l : List Elem, (∀ e ∈ l, p e = false) → findFirst p l = none := by
  intro l
  induction l with
  | nil => intro _; rfl
  | cons e rest ih =>
    intro h
    have he : p e = false := h e (List.mem_cons_self e rest)
    show (if p e then some (e, rest) else findFirst p rest) = none
    rw [if_neg (by simp [he])]
    exact ih (fun x hx => h x (List.mem_cons_of_mem e hx))

theorem findFirst_split (p : Elem → Bool) (s : Elem) (rest : List Elem) (hs : p s = true) :
    ∀ pre : List Elem, (∀ e ∈ pre, p e = false) →
      findFirst p (pre ++ s :: rest) = some (s, rest) := by
  intro pre
  induction pre with
  | nil =>
    intro _
    show (if p s then some (s, rest) else findFirst p rest) = some (s, rest)
    rw [if_pos hs]
  | cons e pre ih =>
    intro h
    have he : p e = false := h e (List.mem_cons_self e pre)
    show (if p e then some (e, pre ++ s :: rest) else findFirst p (pre ++ s :: rest)) =
      some (s, rest)
    rw [if_neg (by simp [he])]
    exact ih (fun x hx => h x (List.mem_cons_of_mem e hx))

theorem map_getD_range (l : List String) :
    (List.range l.length).map (fun i => l.getD i ("")) = l := by
  apply List.ext_getElem
  · simp
  · intro i h1 h2
    simp only [List.getElem_map, List.getElem_range, List.getD_eq_getElem?_getD,
      List.getElem?_eq_getElem h2, Option.getD_some]

theorem nRows_pos_not_isEmpty (d : Dataset) (h : 1 ≤ d.nRows) : d.isEmpty = false := by
  obtain ⟨cols⟩ := d
  cases cols with
  | nil => simp [Dataset.nRows] at h
  | cons c rest =>
    cases hv : c.2 with
    | nil =>
      have h2 : (Dataset.mk (c :: rest)).nRows = 0 := by
        show c.2.length = 0
        rw [hv]
        rfl
      omega
    | cons v vs =>
      show c.2.isEmpty = false
      rw [hv]
      rfl

/-!  Claim theorems. -/

/-- C1: for every dataset holding the `Market cap (US$ billion)` column (with
numeric values, and with none of the four derived column names already
present) and every rate table with rates for all of GBP, EUR, INR and PKR,
`transform` succeeds and appends exactly four new columns named
MC_GBP_Billion, MC_EUR_Billion, MC_INR_Billion, MC_PKR_Billion, in that order
after the existing columns, where for every row the value of the column for
currency C equals round(market_cap_usd * rate[C], 2), rounded to 2 decimal
places independently per row. -/
theorem transform_complete_appends_four (df : Dataset) (rt : RateTable) (qs : List ℚ)
    (rG rE rI rP : ℚ)
    (hmc : df.hasCol mcCol = true)
    (hqs : df.getCol mcCol = qs.map Value.num)
    (hfresh : ∀ c ∈ currencies, df.hasCol (mcColName c) = false)
    (hG : lookupRate rt ("GBP") = some rG)
    (hE : lookupRate rt ("EUR") = some rE)
    (hI : lookupRate rt ("INR") = some rI)
    (hP : lookupRate rt ("PKR") = some rP) :
    transform df (.ok rt) =
      (⟨df.cols ++
        [(mcColName ("GBP"), qs.map (fun q => Value.num (round2 (q * rG)))),
         (mcColName ("EUR"), qs.map (fun q => Value.num (round2 (q * rE)))),
         (mcColName ("INR"), qs.map (fun q => Value.num (round2 (q * rI)))),
         (mcColName ("PKR"), qs.map (fun q => Value.num (round2 (q * rP))))]⟩, none) := by
  have hpres : ∀ c ∈ currencies, (lookupRate rt c).isSome = true := by
    intro c hc
    simp only [currencies, List.mem_cons, List.not_mem_nil, or_false] at hc
    rcases hc with rfl | rfl | rfl | rfl
    · rw [hG]; rfl
    · rw [hE]; rfl
    · rw [hI]; rfl
    · rw [hP]; rfl
  have hne : ∀ c ∈ currencies, (mcColName c == mcCol) = false := by decide
  have hpw : currencies.Pairwise (fun a b => (mcColName a == mcColName b) = false) := by decide
  have hloop := transformLoop_append_fresh rt qs currencies [] df hmc hqs hpres hne hfresh hpw
  rw [List.append_nil] at hloop
  rw [transform, if_pos hmc, hloop]
  simp only [transformLoop, currencies, List.map_cons, List.map_nil]
  rw [rateD_eq rt _ rG hG, rateD_eq rt _ rE hE, rateD_eq rt _ rI hI, rateD_eq rt _ rP hP]

/-- Witness for C1 at a concrete two-row dataset and complete rate table. -/
theorem transform_complete_appends_four_witness :
    transform dfEx (.ok rtEx) =
      (⟨dfEx.cols ++
        [(mcColName ("GBP"), [100, 200].map (fun q => Value.num (round2 (q * (8/10))))),
         (mcColName ("EUR"), [100, 200].map (fun q => Value.num (round2 (q * (93/100))))),
         (mcColName ("INR"), [100, 200].map (fun q => Value.num (round2 (q * (8307/100))))),
         (mcColName ("PKR"),
           [100, 200].map (fun q => Value.num (round2 (q * (27743/100)))))]⟩, none) :=
  transform_complete_appends_four dfEx rtEx [100, 200] (8/10) (93/100)
    (8307/100) (27743/100) (by decide) (by decide) (by decide) rfl rfl rfl rfl

/-- C2: `transform` fails with the schema error (a ValueError wrapped in the
stage RuntimeError) whenever the market-cap column is absent, for every load
outcome of the rate table; and when the column is present (numeric) and some
required currency is absent from the loaded rate table, it fails with the
missing-rate KeyError naming an absent required currency — for every dataset,
independent of row count, including zero rows. -/
theorem transform_failure_modes :
    (∀ (df : Dataset) (load : Except PyError RateTable),
        df.hasCol mcCol = false →
        transform df load = (df, some (wrapT (.valueError schemaColMsg))))
    ∧ (∀ (df : Dataset) (rt : RateTable) (qs : List ℚ),
        df.hasCol mcCol = true →
        df.getCol mcCol = qs.map Value.num →
        (∃ c ∈ currencies, lookupRate rt c = none) →
        ∃ c ∈ currencies, lookupRate rt c = none ∧
          (transform df (.ok rt)).2 = some (wrapT (.keyError (missingRateMsg c)))) := by
  constructor
  · intro df load h
    rw [transform.eq_def, if_neg (by simp [h])]
  · intro df rt qs hmc hqs hex
    have key : ∀ (cs : List String) (c : String) (post : List String),
        currencies = cs ++ c :: post →
        (∀ x ∈ cs, (lookupRate rt x).isSome = true) →
        lookupRate rt c = none →
        (transform df (.ok rt)).2 = some (wrapT (.keyError (missingRateMsg c))) := by
      intro cs c post hsplit hpres hc
      have hne : ∀ x ∈ cs, (mcColName x == mcCol) = false := by
        have hall : ∀ x ∈ currencies, (mcColName x == mcCol) = false := by decide
        intro x hx
        apply hall
        rw [hsplit]
        exact List.mem_append_left _ hx
      obtain ⟨df2, heq, p1, p2⟩ :=
        transformLoop_skip_present rt qs cs (c :: post) df hmc hqs hpres hne
      rw [transform_snd_of_loop df rt hmc, hsplit, heq]
      simp only [transformLoop, hc]
      rfl
    cases hG : lookupRate rt ("GBP") with
    | none =>
      exact ⟨"GBP", by decide, hG,
        key [] ("GBP") ["EUR", "INR", "PKR"] rfl (by intro x hx; simp at hx) hG⟩
    | some rg =>
      cases hE : lookupRate rt ("EUR") with
      | none =>
        refine ⟨"EUR", by decide, hE, key ["GBP"] ("EUR") ["INR", "PKR"] rfl ?_ hE⟩
        intro x hx
        simp only [List.mem_singleton] at hx
        subst hx
        rw [hG]; rfl
      | some re =>
        cases hI : lookupRate rt ("INR") with
        | none =>
          refine ⟨"INR", by decide, hI, key ["GBP", "EUR"] ("INR") ["PKR"] rfl ?_ hI⟩
          intro x hx
          simp only [List.mem_cons, List.not_mem_nil, or_false] at hx
          rcases hx with rfl | rfl
          · rw [hG]; rfl
          · rw [hE]; rfl
        | some ri =>
          cases hP : lookupRate rt ("PKR") with
          | none =>
            refine ⟨"PKR", by decide, hP, key ["GBP", "EUR", "INR"] ("PKR") [] rfl ?_ hP⟩
            intro x hx
            simp only [List.mem_cons, List.not_mem_nil, or_false] at hx
            rcases hx with rfl | rfl | rfl
            · rw [hG]; rfl
            · rw [hE]; rfl
            · rw [hI]; rfl
          | some rp =>
            exfalso
            obtain ⟨c, hcmem, hcnone⟩ := hex
            simp only [currencies, List.mem_cons, List.not_mem_nil, or_false] at hcmem
            rcases hcmem with rfl | rfl | rfl | rfl
            · rw [hG] at hcnone; simp at hcnone
            · rw [hE] at hcnone; simp at hcnone
            · rw [hI] at hcnone; simp at hcnone
            · rw [hP] at hcnone; simp at hcnone

/-- Witness for C2: the schema failure at a dataset without the market-cap
column, and the missing-rate failure at a zero-row dataset against a rate
table lacking EUR. -/
theorem transform_failure_modes_witness :
    transform dfNoMc (.ok rtEx) = (dfNoMc, some (wrapT (.valueError schemaColMsg)))
    ∧ (transform dfEx0 (.ok rtExNoEUR)).2 =
        some (wrapT (.keyError (missingRateMsg ("EUR")))) := by
  constructor
  · exact transform_failure_modes.1 dfNoMc (.ok rtEx) (by decide)
  · obtain ⟨c, hmem, hnone, hsnd⟩ := transform_failure_modes.2 dfEx0 rtExNoEUR []
      (by decide) (by decide) ⟨"EUR", by decide, by decide⟩
    have hc : c = "GBP" ∨ c = "EUR" ∨ c = "INR" ∨ c = "PKR" := by
      simpa [currencies] using hmem
    rcases hc with rfl | rfl | rfl | rfl
    · exact absurd hnone (by decide)
    · exact hsnd
    · exact absurd hnone (by decide)
    · exact absurd hnone (by decide)

/-- C9: on success, `transform` only appends: the returned (in-place mutated)
dataset keeps every pre-existing column with its name, position and values as
a prefix, followed exactly by the four derived currency columns in order. -/
theorem transform_frame_append_only (df : Dataset) (rt : RateTable) (qs : List ℚ)
    (hmc : df.hasCol mcCol = true)
    (hqs : df.getCol mcCol = qs.map Value.num)
    (hfresh : ∀ c ∈ currencies, df.hasCol (mcColName c) = false)
    (hpres : ∀ c ∈ currencies, (lookupRate rt c).isSome = true) :
    (transform df (.ok rt)).2 = none
    ∧ ((transform df (.ok rt)).1).cols.take df.cols.length = df.cols
    ∧ ((transform df (.ok rt)).1).colNames = df.colNames ++ currencies.map mcColName := by
  have hne : ∀ c ∈ currencies, (mcColName c == mcCol) = false := by decide
  have hpw : currencies.Pairwise (fun a b => (mcColName a == mcColName b) = false) := by decide
  have hloop := transformLoop_append_fresh rt qs currencies [] df hmc hqs hpres hne hfresh hpw
  rw [List.append_nil] at hloop
  have htr : transform df (.ok rt) =
      (⟨df.cols ++ currencies.map (fun c =>
        (mcColName c, qs.map (fun q => Value.num (round2 (q * rateD rt c)))))⟩, none) := by
    rw [transform, if_pos hmc, hloop]
    simp only [transformLoop]
  rw [htr]
  refine ⟨rfl, List.take_left _ _, ?_⟩
  show (df.cols ++ currencies.map (fun c =>
      (mcColName c, qs.map (fun q => Value.num (round2 (q * rateD rt c)))))).map
      (fun c => c.1) = df.colNames ++ currencies.map mcColName
  rw [List.map_append, List.map_map]
  rfl

/-- Witness for C9 at a concrete dataset and complete rate table. -/
theorem transform_frame_append_only_witness :
    (transform dfEx (.ok rtEx)).2 = none
    ∧ ((transform dfEx (.ok rtEx)).1).cols.take dfEx.cols.length = dfEx.cols
    ∧ ((transform dfEx (.ok rtEx)).1).colNames = dfEx.colNames ++ currencies.map mcColName :=
  transform_frame_append_only dfEx rtEx [100, 200] (by decide) (by decide) (by decide)
    (by decide)

/-- C10: `transform` is not atomic on a missing-rate failure: when the loaded
rate table holds the rates of every currency preceding `c` in the iteration
order GBP, EUR, INR, PKR but not that of `c`, the call raises the wrapped
missing-rate KeyError naming `c` with the columns of the preceding currencies
already appended to the caller frame. -/
theorem transform_partial_mutation_on_missing_rate (df : Dataset) (rt : RateTable)
    (qs : List ℚ) (pre post : List String) (c : String)
    (hsplit : currencies = pre ++ c :: post)
    (hmc : df.hasCol mcCol = true)
    (hqs : df.getCol mcCol = qs.map Value.num)
    (hfresh : ∀ x ∈ currencies, df.hasCol (mcColName x) = false)
    (hpre : ∀ x ∈ pre, (lookupRate rt x).isSome = true)
    (hc : lookupRate rt c = none) :
    transform df (.ok rt) =
      (⟨df.cols ++ pre.map (fun x =>
          (mcColName x, qs.map (fun q => Value.num (round2 (q * rateD rt x)))))⟩,
       some (wrapT (.keyError (missingRateMsg c)))) := by
  have hsub : pre.Sublist currencies := by
    rw [hsplit]
    exact List.sublist_append_left pre (c :: post)
  have hneAll : ∀ x ∈ currencies, (mcColName x == mcCol) = false := by decide
  have hpwAll : currencies.Pairwise (fun a b => (mcColName a == mcColName b) = false) := by
    decide
  have hne : ∀ x ∈ pre, (mcColName x == mcCol) = false :=
    fun x hx => hneAll x (hsub.subset hx)
  have hfreshPre : ∀ x ∈ pre, df.hasCol (mcColName x) = false :=
    fun x hx => hfresh x (hsub.subset hx)
  have hpw : pre.Pairwise (fun a b => (mcColName a == mcColName b) = false) :=
    List.Pairwise.sublist hsub hpwAll
  have hloop := transformLoop_append_fresh rt qs pre (c :: post) df hmc hqs hpre hne hfreshPre hpw
  have hstop : transformLoop rt
      (⟨df.cols ++ pre.map (fun x =>
        (mcColName x, qs.map (fun q => Value.num (round2 (q * rateD rt x)))))⟩ : Dataset)
      (c :: post) =
      (⟨df.cols ++ pre.map (fun x =>
        (mcColName x, qs.map (fun q => Value.num (round2 (q * rateD rt x)))))⟩,
       some (.keyError (missingRateMsg c))) := by
    simp only [transformLoop, hc]
  rw [transform, if_pos hmc, hsplit, hloop, hstop]

/-- Witness for C10: GBP present, EUR missing — the call fails naming EUR with
the MC_GBP_Billion column already appended. -/
theorem transform_partial_mutation_on_missing_rate_witness :
    transform dfEx (.ok rtExNoEUR) =
      (⟨dfEx.cols ++ [(mcColName ("GBP"),
          [100, 200].map (fun q => Value.num (round2 (q * (8/10)))))]⟩,
       some (wrapT (.keyError (missingRateMsg ("EUR"))))) := by
  have h := transform_partial_mutation_on_missing_rate dfEx rtExNoEUR [100, 200]
    ["GBP"] ["INR", "PKR"] ("EUR") rfl (by decide) (by decide) (by decide) (by decide) rfl
  exact h

/-- C3 counterexample: in this document the first (and only) element whose
text matches the marker is a div, not a span, and a table follows it; the
claim as stated would have `extract` parse that table, but the code reports
the marker as not found, because the locator looks only at span elements. -/
theorem extract_marker_any_element_cex :
    (∃ e ∈ docDivOnly, e.text = "By market capitalization")
    ∧ (∃ e ∈ docDivOnly, e.tag = "table")
    ∧ extract docDivOnly ("By market capitalization") =
        .error (.valueError
          ("Table with attributes \x27By market capitalization\x27 not found on the webpage.")) :=
  ⟨by decide, by decide, rfl⟩

/-- C3 amended: `extract` locates the first span element whose text matches
the marker exactly and fails with the not-found ValueError when no such span
exists; from that span it takes the next table element in document order,
failing with the no-table ValueError when none follows; otherwise it parses
that table into the returned dataset using its first row as the column names
(one column per header cell, one value per body row). -/
theorem extract_span_marker_behaviour :
    (∀ (doc : List Elem) (marker : String),
        (∀ e ∈ doc, ¬(e.tag = "span" ∧ e.text = marker)) →
        extract doc marker = .error (.valueError
          ("Table with attributes \x27" ++ marker ++ "\x27 not found on the webpage.")))
    ∧ (∀ (pre rest : List Elem) (s : Elem) (marker : String),
        (∀ e ∈ pre, ¬(e.tag = "span" ∧ e.text = marker)) →
        s.tag = "span" → s.text = marker →
        (∀ e ∈ rest, ¬ e.tag = "table") →
        extract (pre ++ s :: rest) marker =
          .error (.valueError ("No table found after the specified span.")))
    ∧ (∀ (pre mid post : List Elem) (s t : Elem) (marker : String)
        (header : List String) (body : List (List String)),
        (∀ e ∈ pre, ¬(e.tag = "span" ∧ e.text = marker)) →
        s.tag = "span" → s.text = marker →
        (∀ e ∈ mid, ¬ e.tag = "table") → t.tag = "table" →
        t.rows = header :: body →
        (extract (pre ++ s :: (mid ++ t :: post)) marker).map (fun d => d.colNames) =
            .ok header
        ∧ (extract (pre ++ s :: (mid ++ t :: post)) marker).map
            (fun d => d.cols.map (fun col => col.2.length)) =
            .ok (List.replicate header.length body.length)) := by
  have hfalse : ∀ (marker : String) (l : List Elem),
      (∀ e ∈ l, ¬(e.tag = "span" ∧ e.text = marker)) →
      ∀ e ∈ l, ((e.tag == "span" && e.text == marker) = false) := by
    intro marker l h e he
    cases hb : (e.tag == "span" && e.text == marker) with
    | false => rfl
    | true =>
      exfalso
      apply h e he
      have := Bool.and_eq_true_iff.mp hb
      exact ⟨by simpa using this.1, by simpa using this.2⟩
  have htfalse : ∀ (l : List Elem), (∀ e ∈ l, ¬ e.tag = "table") →
      ∀ e ∈ l, ((e.tag == "table") = false) := by
    intro l h e he
    cases hb : (e.tag == "table") with
    | false => rfl
    | true =>
      exfalso
      exact h e he (by simpa using hb)
  refine ⟨?_, ?_, ?_⟩
  · intro doc marker h
    rw [extract.eq_def, findFirst_eq_none _ doc (hfalse marker doc h)]
  · intro pre rest s marker hpre hs ht hnotab
    have hp : findFirst (fun e => e.tag == "span" && e.text == marker) (pre ++ s :: rest) =
        some (s, rest) :=
      findFirst_split _ s rest (by simp [hs, ht]) pre (hfalse marker pre hpre)
    have hq : findFirst (fun e => e.tag == "table") rest = none :=
      findFirst_eq_none _ rest (htfalse rest hnotab)
    rw [extract.eq_def, hp]
    dsimp only
    rw [hq]
  · intro pre mid post s t marker header body hpre hs ht hmid htag hrows
    have hp : findFirst (fun e => e.tag == "span" && e.text == marker)
        (pre ++ s :: (mid ++ t :: post)) = some (s, mid ++ t :: post) :=
      findFirst_split _ s (mid ++ t :: post) (by simp [hs, ht]) pre (hfalse marker pre hpre)
    have hq : findFirst (fun e => e.tag == "table") (mid ++ t :: post) = some (t, post) :=
      findFirst_split _ t post (by simp [htag]) mid (htfalse mid hmid)
    have hext : extract (pre ++ s :: (mid ++ t :: post)) marker = parseTable t.rows := by
      rw [extract.eq_def, hp]
      dsimp only
      rw [hq]
    constructor
    · rw [hext, hrows]
      simp only [parseTable, Except.map, Dataset.colNames, List.map_map, Function.comp_def]
      rw [map_getD_range]
    · rw [hext, hrows]
      simp only [parseTable, Except.map, List.map_map, Function.comp_def, List.length_map,
        List.map_const', List.length_range]

/-- Witness for the amended C3 at a concrete document: div, matching span,
paragraph, table (header plus two rows), trailing empty table. -/
theorem extract_span_marker_behaviour_witness :
    (extract docSpanEx ("By market capitalization")).map (fun d => d.colNames) =
      .ok (["Bank name", "MC"])
    ∧ (extract docSpanEx ("By market capitalization")).map
        (fun d => d.cols.map (fun col => col.2.length)) = .ok ([2, 2]) := by
  have h := extract_span_marker_behaviour.2.2 [elDiv] [elPara] [elTable2] elSpan elTable
    ("By market capitalization") ["Bank name", "MC"] [["A", "100"], ["B", "200"]]
    (by decide) rfl rfl (by decide) rfl rfl
  exact ⟨h.1, h.2⟩

/-- C4: both sinks raise the empty-dataset ValueError and write nothing when
the dataset is absent or has zero rows, and both succeed on any dataset with
at least one row: the file exists with the serialized content, the table is
queryable and holds the dataset. -/
theorem sinks_empty_check :
    (∀ (output_path : String) (fs : FS) (db : DB) (table_name : String),
        load_to_csv none output_path fs = (fs, some (.valueError emptyDfMsg)) ∧
        load_to_db none db table_name = (db, some (.valueError emptyDfMsg)))
    ∧ (∀ (d : Dataset) (output_path : String) (fs : FS) (db : DB) (table_name : String),
        d.isEmpty = true →
        load_to_csv (some d) output_path fs = (fs, some (.valueError emptyDfMsg)) ∧
        load_to_db (some d) db table_name = (db, some (.valueError emptyDfMsg)))
    ∧ (∀ (d : Dataset) (output_path : String) (fs : FS) (db : DB) (table_name : String),
        1 ≤ d.nRows →
        (load_to_csv (some d) output_path fs).2 = none ∧
        ((load_to_csv (some d) output_path fs).1.find? (fun p => p.1 == output_path)) =
          some (output_path, to_csv d) ∧
        (load_to_db (some d) db table_name).2 = none ∧
        ((load_to_db (some d) db table_name).1).lookup table_name = some d) := by
  refine ⟨?_, ?_, ?_⟩
  · intro p fs db n
    exact ⟨rfl, rfl⟩
  · intro d p fs db n h
    constructor
    · simp [load_to_csv, h]
    · simp [load_to_db, h]
  · intro d p fs db n h
    have he : d.isEmpty = false := nRows_pos_not_isEmpty d h
    have h1 : load_to_csv (some d) p fs =
        ((p, to_csv d) :: fs.filter (fun q => q.1 != p), none) := by
      simp [load_to_csv, he]
    have h2 : load_to_db (some d) db n = (DB.replaceTable db n d, none) := by
      simp [load_to_db, he]
    refine ⟨by rw [h1], ?_, by rw [h2], ?_⟩
    · rw [h1]
      show ((p, to_csv d) :: fs.filter (fun q => q.1 != p)).find? (fun q => q.1 == p) =
        some (p, to_csv d)
      rw [List.find?_cons]
      simp
    · rw [h2]
      show (DB.replaceTable db n d).lookup n = some d
      simp [DB.replaceTable, DB.lookup, List.find?_cons]

/-- Witness for C4: the empty checks at None and at a zero-row dataset, and
success at a one-row dataset. -/
theorem sinks_empty_check_witness :
    (load_to_csv none ("out.csv") [] = ([], some (.valueError emptyDfMsg)))
    ∧ (load_to_csv (some dfEx0) ("out.csv") [] = ([], some (.valueError emptyDfMsg)))
    ∧ (load_to_db (some dfEx0) ⟨[]⟩ ("Largest_banks") = (⟨[]⟩, some (.valueError emptyDfMsg)))
    ∧ ((load_to_csv (some dfEx) ("out.csv") []).2 = none)
    ∧ (((load_to_db (some dfEx) ⟨[]⟩ ("Largest_banks")).1).lookup ("Largest_banks") =
        some dfEx) := by
  refine ⟨?_, ?_, ?_, ?_, ?_⟩
  · exact (sinks_empty_check.1 ("out.csv") [] ⟨[]⟩ ("Largest_banks")).1
  · exact (sinks_empty_check.2.1 dfEx0 ("out.csv") [] ⟨[]⟩ ("Largest_banks") (by decide)).1
  · exact (sinks_empty_check.2.1 dfEx0 ("out.csv") [] ⟨[]⟩ ("Largest_banks") (by decide)).2
  · exact (sinks_empty_check.2.2 dfEx ("out.csv") [] ⟨[]⟩ ("Largest_banks") (by decide)).1
  · exact (sinks_empty_check.2.2 dfEx ("out.csv") [] ⟨[]⟩ ("Largest_banks") (by decide)).2.2.2

/-- C5: two consecutive `write_table` calls with the same table name on
non-empty datasets both succeed, and the stored table afterwards is exactly
the second dataset — schema and rows — with no accumulation from the first. -/
theorem write_table_replace (d1 d2 : Dataset) (db : DB) (table_name : String)
    (h1 : d1.isEmpty = false) (h2 : d2.isEmpty = false) :
    (load_to_db (some d1) db table_name).2 = none
    ∧ (load_to_db (some d2) (load_to_db (some d1) db table_name).1 table_name).2 = none
    ∧ ((load_to_db (some d2) (load_to_db (some d1) db table_name).1 table_name).1).lookup
        table_name = some d2 := by
  have e1 : load_to_db (some d1) db table_name = (DB.replaceTable db table_name d1, none) := by
    simp [load_to_db, h1]
  have e2 : ∀ dbx : DB, load_to_db (some d2) dbx table_name =
      (DB.replaceTable dbx table_name d2, none) := by
    intro dbx
    simp [load_to_db, h2]
  refine ⟨by rw [e1], ?_, ?_⟩
  · rw [e1]
    simp only [e2]
  · rw [e1]
    simp only [e2]
    show (DB.replaceTable (DB.replaceTable db table_name d1) table_name d2).lookup
      table_name = some d2
    simp [DB.replaceTable, DB.lookup, List.find?_cons]

/-- Witness for C5 at two concrete datasets with different schemas. -/
theorem write_table_replace_witness :
    (load_to_db (some dfEx) ⟨[]⟩ ("Largest_banks")).2 = none
    ∧ (load_to_db (some dfEx2) (load_to_db (some dfEx) ⟨[]⟩ ("Largest_banks")).1
        ("Largest_banks")).2 = none
    ∧ ((load_to_db (some dfEx2) (load_to_db (some dfEx) ⟨[]⟩ ("Largest_banks")).1
        ("Largest_banks")).1).lookup ("Largest_banks") = some dfEx2 :=
  write_table_replace dfEx dfEx2 ⟨[]⟩ ("Largest_banks") (by decide) (by decide)

/-- C6: `run_query` closes its cursor exactly once whenever the cursor local
was bound, and zero times otherwise, on every exit path — success, a database
error (including a malformed query) and any other exception — and the cursor
is bound on every path past acquisition. -/
theorem run_query_cursor_discipline :
    ∀ (out : QueryOutcome),
      (run_query out).closedCount = (if (run_query out).cursorDefined then 1 else 0)
      ∧ (∀ (e : PyError) (dbErr : Bool), (run_query (.bodyFail e dbErr)).cursorDefined = true)
      ∧ (∀ (rows : List (List Value)), (run_query (.fetchOk rows)).cursorDefined = true) := by
  intro out
  refine ⟨?_, fun e b => rfl, fun rows => rfl⟩
  cases out <;> rfl

/-- C7 counterexample: in the all-success run the connection trace is exactly
open-then-commit: the sqlite3 connection context manager emits no close
event, so the connection is not closed exactly once as claimed. -/
theorem db_connection_close_refuted :
    (dbSection true true true true).1 = [ConnEvent.opened, ConnEvent.committed]
    ∧ ¬ ((dbSection true true true true).1.count ConnEvent.closed = 1) := by
  exact ⟨rfl, by decide⟩

/-- C7 amended: in every run of the database section — whichever of the table
load and the three queries fails — the connection is opened exactly once,
first, and on exit the context manager commits or rolls back exactly once; it
never closes the connection, whose release is left to interpreter shutdown. -/
theorem db_connection_scoped_transaction (loadOk q1Ok q2Ok q3Ok : Bool) :
    (dbSection loadOk q1Ok q2Ok q3Ok).1.count ConnEvent.opened = 1
    ∧ (dbSection loadOk q1Ok q2Ok q3Ok).1.head? = some ConnEvent.opened
    ∧ (dbSection loadOk q1Ok q2Ok q3Ok).1.count ConnEvent.committed +
        (dbSection loadOk q1Ok q2Ok q3Ok).1.count ConnEvent.rolledBack = 1
    ∧ (dbSection loadOk q1Ok q2Ok q3Ok).1.count ConnEvent.closed = 0 := by
  cases loadOk <;> cases q1Ok <;> cases q2Ok <;> cases q3Ok <;> exact ⟨rfl, rfl, rfl, rfl⟩

/-- C8: `log_progress` never propagates an exception to its caller — for
every outcome of the file-system attempt — and on every failing attempt it
prints a console message instead. -/
theorem log_progress_never_raises :
    ∀ (attempt : Option PyError),
      (log_progress attempt).2 = none
      ∧ (∀ e : PyError, ((log_progress (some e)).1).isSome = true) := by
  intro a
  constructor
  · cases a with
    | none => rfl
    | some e => cases e <;> rfl
  · intro e
    cases e <;> rfl

end ETL
